import Mathlib

/-!
Verification development for the `sappy` SAP GUI automation client
(`src/sappy/client.py`).

The file shallow-embeds the components the specification talks about:

* the snapshot-based element locator `Session.find_elements` /
  `Session.find_element` (lines 150-185of client.py), working on the JSON
  object tree returned by `GetObjectTree`;
* the field updater `Session.update_field` (lines 187-203);
* the two table extractors inside `Session.get_table` (lines 218-241) and
  the empty-row post-filter (line 254);
* the transaction sequencing `Session.open_transaction` /
  `Session.close_transaction` (lines 112-134);
* the connection / session acquisition logic `Client.new_session`
  (lines 61-91) with its 20 second discovery poll.

Python strings, dictionaries and exceptions are embedded explicitly:
a JSON node is a `RawTree` whose `properties` entry may be absent
(`none`), present without an `Id` key (`some none`) or present with an
`Id` (`some (some s)`); fallible code returns `Except`; the unbounded
`while True` column probe takes explicit fuel.
-/

/-! ## Python substring containment (`needle in hay`) -/

/-- Bool test that `a` is a contiguous leading block of `b`. -/
def isPrefixB : List Char → List Char → Bool
  | [], _ => true
  | _ :: _, [] => false
  | a :: as, b :: bs => a == b && isPrefixB as bs

/-- Bool test that `n` occurs contiguously inside `b`; this is the
semantics of the Python expression `n in b` on strings. -/
def isInfixB (n : List Char) : List Char → Bool
  | [] => isPrefixB n []
  | b :: bs => isPrefixB n (b :: bs) || isInfixB n bs

/-- Python `needle in hay` for strings: case-sensitive contiguous
substring containment, no anchoring. -/
def strIn (needle hay : String) : Bool := isInfixB needle.toList hay.toList

theorem isPrefixB_iff (a b : List Char) : isPrefixB a b = true ↔ a <+: b := by
  induction a generalizing b with
  | nil => simp [isPrefixB]
  | cons x xs ih =>
    cases b with
    | nil => simp [isPrefixB]
    | cons y ys =>
      rw [ List.cons_prefix_cons]
      simp [isPrefixB, ih]

theorem isInfixB_iff (a b : List Char) : isInfixB a b = true ↔ a <:+: b := by
  induction b with
  | nil => simp [isInfixB, isPrefixB_iff, List.infix_nil, List.prefix_nil]
  | cons y ys ih => simp [isInfixB, isPrefixB_iff, ih, List.infix_cons_iff]

/-- `strIn` decides mathematical substring containment on the character
lists of the two strings. -/
theorem strIn_iff (n h : String) : strIn n h = true ↔ n.toList <:+: h.toList :=
  isInfixB_iff _ _

theorem strIn_eq_decide (n h : String) :
    strIn n h = decide (n.toList <:+: h.toList) := by
  by_cases hc : n.toList <:+: h.toList
  · rw [(strIn_iff n h).mpr hc, decide_eq_true hc]
  · have h1 : strIn n h = false := by
      cases hb : strIn n h
      · rfl
      · exact absurd ((strIn_iff n h).mp hb) hc
    rw [h1, decide_eq_false hc]

theorem strIn_empty_left (h : String) : strIn "" h = true := by
  rw [strIn_iff]
  exact List.nil_infix

theorem toList_eq_nil_iff (s : String) : s.toList = [] ↔ s = "" := by
  constructor
  · intro h
    exact String.ext h
  · intro h
    subst h
    rfl

theorem strIn_empty_right (n : String) (h : n ≠ "") : strIn n "" = false := by
  cases hb : strIn n "" with
  | false => rfl
  | true =>
    have := (strIn_iff n "").mp hb
    rw [show ("" : String).toList = [] from rfl, List.infix_nil] at this
    exact absurd ((toList_eq_nil_iff n).mp this) h

/-! ## The JSON object tree returned by `GetObjectTree`

`Session.find_elements` parses the JSON text into nested dictionaries and
reads `tree.get('properties',{}).get('Id','')`, `tree['properties']['Id']`
and `tree.get('children', [])`.  A node is therefore embedded with

* `props = none`            : the node has no `properties` entry;
* `props = some none`       : `properties` is present but has no `Id`;
* `props = some (some s)`   : `properties.Id` is the string `s`;
* `children = .missing`     : the node has no `children` entry;
* `children = .present f`   : the `children` list is `f`.
-/

mutual
inductive RawTree : Type where
  | mk : Option (Option String) → RawChildren → RawTree
inductive RawChildren : Type where
  | missing : RawChildren
  | present : RawForest → RawChildren
inductive RawForest : Type where
  | nil : RawForest
  | cons : RawTree → RawForest → RawForest
end

/-- `tree.get('properties',{}).get('Id','')`: the identifier used by the
match guard, defaulting to the empty string when either key is absent. -/
def getIdDefault : Option (Option String) → String
  | some (some s) => s
  | _ => ""

/-- One node of the body of `search_tree` (client.py lines 162-163):
`if idn in tree.get('properties',{}).get('Id',''): result.append(tree['properties']['Id'])`.
When the guard passes but the strict lookup `tree['properties']['Id']`
finds no key, Python raises `KeyError`, embedded as `Except.error ()`. -/
def headMatch (idn : String) (props : Option (Option String)) : Except Unit (List String) :=
  if strIn idn (getIdDefault props) then
    match props with
    | some (some i) => Except.ok [i]
    | _ => Except.error ()
  else Except.ok []

mutual
/-- `Session.find_elements.search_tree` (client.py lines 160-166): match
the current node, then extend with the results of the children in order;
any raised `KeyError` aborts the whole search. -/
def search_tree (idn : String) : RawTree → Except Unit (List String)
  | .mk props ch =>
    match headMatch idn props with
    | .error e => .error e
    | .ok head =>
      match searchChildren idn ch with
      | .error e => .error e
      | .ok rest => .ok (head ++ rest)
/-- `tree.get('children', [])`: a node without a `children` entry is
iterated as the empty list. -/
def searchChildren (idn : String) : RawChildren → Except Unit (List String)
  | .missing => .ok []
  | .present f => searchForest idn f
/-- `for child in ...: result.extend(search_tree(child))`, left to right,
first raised error aborts. -/
def searchForest (idn : String) : RawForest → Except Unit (List String)
  | .nil => .ok []
  | .cons t ts =>
    match search_tree idn t with
    | .error e => .error e
    | .ok r =>
      match searchForest idn ts with
      | .error e => .error e
      | .ok rs => .ok (r ++ rs)
end

mutual
/-- The identifiers of the nodes of a tree in depth-first order, parent
before children, children in collection order (defaulted as the guard
reads them). -/
def preorderIds : RawTree → List String
  | .mk props ch => getIdDefault props :: preorderIdsC ch
def preorderIdsC : RawChildren → List String
  | .missing => []
  | .present f => preorderIdsF f
def preorderIdsF : RawForest → List String
  | .nil => []
  | .cons t ts => preorderIds t ++ preorderIdsF ts
end

mutual
/-- A snapshot is well-formed when every node carries `properties.Id`,
as the spec data model (§3, WidgetTreeSnapshot) stipulates. -/
def RawTree.wfB : RawTree → Bool
  | .mk props ch =>
    (match props with | some (some _) => true | _ => false) && RawChildren.wfB ch
def RawChildren.wfB : RawChildren → Bool
  | .missing => true
  | .present f => RawForest.wfB f
def RawForest.wfB : RawForest → Bool
  | .nil => true
  | .cons t ts => t.wfB && RawForest.wfB ts
end

mutual
/-- Whether some node of the tree has no `properties` entry at all. -/
def hasNoPropsNode : RawTree → Bool
  | .mk props ch =>
    (match props with | none => true | _ => false) || hasNoPropsChildren ch
def hasNoPropsChildren : RawChildren → Bool
  | .missing => false
  | .present f => hasNoPropsForest f
def hasNoPropsForest : RawForest → Bool
  | .nil => false
  | .cons t ts => hasNoPropsNode t || hasNoPropsForest ts
end

/-! ## `Session.find_element` and `Session.update_field` -/

/-- The error outcomes of the session helpers: a propagated `KeyError`
from the snapshot walk, the locator NotFound and AmbiguousMatch
`ValueError`s (client.py lines 182 and 184), and the ArityMismatch
`ValueError` of `update_field` (line 200). -/
inductive SessErr : Type where
  | keyError : SessErr
  | notFound : SessErr
  | ambiguous : SessErr
  | arityMismatch : SessErr
deriving DecidableEq

/-- `Session.find_element` (client.py lines 169-185): zero matches raise
NotFound, more than one match with `first_element=False` raises
AmbiguousMatch, otherwise the first match is resolved (`findById` on
`elements[0]`, embedded as returning the path itself). -/
def find_element (idn : String) (first_element : Bool) (t : RawTree) : Except SessErr String :=
  match search_tree idn t with
  | .error _ => .error .keyError
  | .ok [] => .error .notFound
  | .ok (e :: rest) =>
    if rest.length + 1 > 1 && !first_element then .error .ambiguous
    else .ok e

/-- A Python argument that is either a scalar string or an already-split
sequence of strings, as accepted by `update_field`. -/
inductive PyArg : Type where
  | str : String → PyArg
  | strs : List String → PyArg

/-- Helper for `pySplit`: walk the characters keeping the (reversed)
current word; whitespace ends the current word, empty words are not
emitted. -/
def splitWsAux : List Char → List Char → List String
  | [], acc => if acc.isEmpty then [] else [String.mk acc.reverse]
  | c :: cs, acc =>
    if c.isWhitespace then
      (if acc.isEmpty then [] else [String.mk acc.reverse]) ++ splitWsAux cs []
    else splitWsAux cs (c :: acc)

/-- Python `s.split()` with no separator: split on runs of whitespace,
dropping empty words. -/
def pySplit (s : String) : List String := splitWsAux s.toList []

/-- `if isinstance(x, str): x = x.split()` (client.py lines 195-198). -/
def argList : PyArg → List String
  | .str s => pySplit s
  | .strs l => l

/-- The loop body of `update_field` (client.py lines 202-203): resolve
each identifier with `find_element` (unique match required) and record
the write `(resolved path, value)`; the first failure stops the loop with
the writes performed so far. -/
def runUpdates (t : RawTree) : List (String × String) → List (String × String) × Option SessErr
  | [] => ([], none)
  | (f, v) :: rest =>
    match find_element f false t with
    | .error e => ([], some e)
    | .ok path =>
      match runUpdates t rest with
      | (ws, err) => ((path, v) :: ws, err)

/-- `Session.update_field` (client.py lines 187-203): scalars are split
on whitespace, a length mismatch raises the arity `ValueError` before the
write loop runs; the result records the writes performed and the error
raised, if any. -/
def update_field (idn value : PyArg) (t : RawTree) :
    List (String × String) × Option SessErr :=
  if (argList idn).length ≠ (argList value).length then ([], some .arityMismatch)
  else runUpdates t ((argList idn).zip (argList value))

/-! ## `Session.get_table`: the two extraction algorithms

`GuiTableControl` (client.py lines 218-228) probes `GetCell(row, column)`
for columns 0,1,2,... until a probe raises, which ends the row scan; the
unbounded `while True` is embedded with explicit fuel.  `GridViewCtrl`
(lines 230-241) repositions the visible window (`firstVisibleRow` at
every 3rd row index, `firstVisibleColumn` at every 3rd column-order
position) and swallows per-cell read failures.  Line 254 finally drops
rows that extracted no cell: `output = [row for row in output if row]`.
-/

/-- A fixed-grid widget: `RowCount` plus the cell probe
`GetCell(row, column).text`, where `none` embeds a raised exception. -/
structure TableElement : Type where
  RowCount : Nat
  GetCell : Nat → Nat → Option String

/-- The inner `while True` of `GuiTableControl`: append cell text at
increasing column indices starting from `col`; the first failing probe
breaks the loop.  `fuel` bounds the number of iterations. -/
def scanRow (e : TableElement) (r : Nat) : Nat → Nat → List String
  | 0, _ => []
  | fuel + 1, col =>
    match e.GetCell r col with
    | some v => v :: scanRow e r fuel (col + 1)
    | none => []

/-- `GuiTableControl(element)` (client.py lines 218-228): one probed row
per row index; every row is appended, including empty ones. -/
def GuiTableControl (e : TableElement) (fuel : Nat) : List (List String) :=
  (List.range e.RowCount).map fun r => scanRow e r fuel 0

/-- `get_table` on a fixed-grid widget: the extractor output after the
empty-row filter of client.py line 254. -/
def get_table_fixed (e : TableElement) (fuel : Nat) : List (List String) :=
  (GuiTableControl e fuel).filter fun row => !row.isEmpty

/-- A virtualized-grid widget: `RowCount`, the reported `ColumnOrder`,
and `getcellvalue(row, column)`, where `none` embeds a raised
exception. -/
structure GridElement : Type where
  RowCount : Nat
  ColumnOrder : List String
  getcellvalue : Nat → String → Option String

/-- The observable scroll/read actions `GridViewCtrl` performs against
the live widget. -/
inductive GridEvent : Type where
  | setFirstVisibleRow : Nat → GridEvent
  | setFirstVisibleColumn : String → GridEvent
  | readCell : Nat → String → GridEvent
deriving DecidableEq

/-- One step of the inner column loop of `GridViewCtrl` (client.py lines
235-239): at every 3rd column-order position assign
`firstVisibleColumn`, then attempt `getcellvalue`; a raised read is
swallowed (`except: pass`), so the cell is simply not appended. -/
def gridCellStep (e : GridElement) (r : Nat)
    (acc : List GridEvent × List String) (jc : Nat × String) :
    List GridEvent × List String :=
  let evs := (if jc.1 % 3 = 0 then [GridEvent.setFirstVisibleColumn jc.2] else [])
      ++ [GridEvent.readCell r jc.2]
  match e.getcellvalue r jc.2 with
  | some v => (acc.1 ++ evs, acc.2 ++ [v])
  | none => (acc.1 ++ evs, acc.2)

/-- The column loop `for j, column in enumerate(element.ColumnOrder)`. -/
def gridRow (e : GridElement) (r : Nat) : List GridEvent × List String :=
  e.ColumnOrder.enum.foldl (gridCellStep e r) ([], [])

/-- One step of the row loop of `GridViewCtrl` (client.py lines
232-240): at every 3rd row index assign `firstVisibleRow`, then run the
column loop; every row content list is appended, including empty ones. -/
def gridRowFull (e : GridElement) (r : Nat) : List GridEvent × List String :=
  ((if r % 3 = 0 then [GridEvent.setFirstVisibleRow r] else []) ++ (gridRow e r).1,
   (gridRow e r).2)

/-- `GridViewCtrl(element)` (client.py lines 230-241), with the event
trace of scroll assignments and attempted reads alongside the extracted
content. -/
def GridViewCtrl (e : GridElement) : List GridEvent × List (List String) :=
  (List.range e.RowCount).foldl
    (fun acc r => (acc.1 ++ (gridRowFull e r).1, acc.2 ++ [(gridRowFull e r).2]))
    ([], [])

/-- `get_table` on a virtualized-grid widget: the extractor output after
the empty-row filter of client.py line 254. -/
def get_table_grid (e : GridElement) : List (List String) :=
  (GridViewCtrl e).2.filter fun row => !row.isEmpty

/-- The row indices at which the trace assigns `firstVisibleRow`. -/
def rowScrolls (evs : List GridEvent) : List Nat :=
  evs.filterMap fun ev =>
    match ev with
    | .setFirstVisibleRow r => some r
    | _ => none

/-! ## Transaction sequencing (`open_transaction` / `close_transaction`)

The live widget state is embedded as: whether the command field
`wnd[0]/tbar[0]/okcd` resolves, the currently open transaction, and the
text currently sitting in the command field.  The reaction of the real
widget to Enter is modelled from the spec (§4.5, §6): writing the
sentinel `"/n"` and confirming closes the open transaction and is a
no-op when none is open, never an error; writing a transaction code and
confirming opens it. -/

/-- A primitive GUI command issued by the session controller. -/
inductive GuiCmd : Type where
  | setText : String → String → GuiCmd
  | sendVKey : Nat → Nat → GuiCmd
deriving DecidableEq

/-- The embedded session/widget state. -/
structure SapState : Type where
  hasOkcd : Bool
  currentTransaction : Option String
  okcd : String
deriving DecidableEq

/-- `self.ses.findById("wnd[0]/tbar[0]/okcd").text = text`: fails when
the command field does not resolve, otherwise stores the text and
records the write. -/
def write_okcd (s : SapState) (text : String) : Except String (SapState × List GuiCmd) :=
  if s.hasOkcd then
    .ok ({ s with okcd := text }, [.setText "wnd[0]/tbar[0]/okcd" text])
  else .error "element not found"

/-- Modelled from the spec (§4.5, §6; not part of src/): the reaction of
the real SAP window to VKey 0 (Enter).  The sentinel `"/n"` closes the
current transaction — a no-op side effect when none is open, not an
error; an empty command field does nothing; any other text opens that
transaction.  The field is consumed by the confirmation. -/
def press_enter (s : SapState) : SapState :=
  if s.okcd = "/n" then { s with currentTransaction := none, okcd := "" }
  else if s.okcd = "" then s
  else { s with currentTransaction := some s.okcd, okcd := "" }

/-- `self.send_key(0)` on window 0 (client.py lines 136-148): dispatch
VKey 0 to `wnd[0]` and record it. -/
def send_key0 (s : SapState) : SapState × List GuiCmd :=
  (press_enter s, [.sendVKey 0 0])

/-- `Session.close_transaction` (client.py lines 126-134): write the
close sentinel `"/n"` into the command field and confirm. -/
def close_transaction (s : SapState) : Except String (SapState × List GuiCmd) :=
  match write_okcd s "/n" with
  | .error e => .error e
  | .ok (s1, t1) =>
    match send_key0 s1 with
    | (s2, t2) => .ok (s2, t1 ++ t2)

/-- `Session.open_transaction` (client.py lines 112-124): always first
force-close via `close_transaction`, then write the transaction code and
confirm. -/
def open_transaction (code : String) (s : SapState) : Except String (SapState × List GuiCmd) :=
  match close_transaction s with
  | .error e => .error e
  | .ok (s1, t1) =>
    match write_okcd s1 code with
    | .error e => .error e
    | .ok (s2, t2) =>
      match send_key0 s2 with
      | (s3, t3) => .ok (s3, t1 ++ t2 ++ t3)

/-! ## `Client.new_session` (client.py lines 61-91)

The scripting engine is embedded as the list of descriptions of the
existing connections (`application.Children(i).Description`), a held
connection as the optional description of `self.connection`, and the
children of the connection as the list of their `Id` strings.  The
re-reads of `self.connection.Children` inside the discovery loop, and
the wall clock, are an observation stream `obs : Nat → Nat × List String`
giving the time and the id set seen at each re-read; `obs 0` is the
read of `after` on line 80, taken right after `createSession()`.  The
loop itself (`while not(after - before) and (current - start) < 20`) is
embedded with explicit fuel. -/

/-- The externally visible calls `new_session` makes, in order. -/
inductive ClientAction : Type where
  | openConnection : ClientAction
  | attachExisting : ClientAction
  | createSession : ClientAction
  | pollRead : ClientAction
  | findById : String → ClientAction
deriving DecidableEq

/-- What `new_session` hands back: the master session
`connection.Children(0)` directly, or a child resolved with `findById`
after the discovery poll. -/
inductive NewSessionResult : Type where
  | masterChild : String → NewSessionResult
  | polledChild : String → NewSessionResult
deriving DecidableEq

/-- Python `after - before` on sets of ids followed by `list(...)`:
the ids of `after` that are not in `before`, in observation order. -/
def newIds (before after : List String) : List String :=
  after.filter fun i => !before.contains i

/-- The discovery loop (client.py lines 84-86).  Arguments: remaining
fuel, index of the next observation, current clock value, current
`after` set.  Returns the number of loop iterations run and the final
clock and `after` set. -/
def pollAux (before : List String) (obs : Nat → Nat × List String) (start : Nat) :
    Nat → Nat → Nat → List String → Nat × (Nat × List String)
  | 0, _, current, after => (0, (current, after))
  | fuel + 1, k, current, after =>
    if newIds before after = [] ∧ current - start < 20 then
      match pollAux before obs start fuel (k + 1) (obs k).1 (obs k).2 with
      | (n, res) => (n + 1, res)
    else (0, (current, after))

/-- Lines 77-91 of client.py, from the `before` snapshot onwards:
`createSession()`, the initial `after` read, the bounded poll, then
`list(after - before)[0]` — which raises `IndexError` when the
difference is still empty — and `findById` on the selected id. -/
def pollPhase (pre : List ClientAction) (before : List String) (start : Nat)
    (obs : Nat → Nat × List String) (fuel : Nat) :
    List ClientAction × Except String NewSessionResult :=
  match pollAux before obs start fuel 1 start (obs 0).2 with
  | (reads, (_, after)) =>
    let acts := pre ++ [ClientAction.createSession] ++ List.replicate (reads + 1) ClientAction.pollRead
    match newIds before after with
    | [] => (acts, .error "IndexError: list index out of range")
    | x :: _ => (acts ++ [ClientAction.findById x], .ok (.polledChild x))

/-- `Client.new_session` (client.py lines 61-91).  `held` is the
description of the currently held connection, if any; `engineDescs` the
descriptions of the connections the scripting engine already has;
`childIds` the ids of the children of the (possibly fresh) connection at
the time of the `before` snapshot.  When a brand-new connection had to
be opened (`was_open = False`), the master session
`connection.Children(0)` is returned directly; otherwise the discovery
poll runs. -/
def new_session (held : Option String) (server : String) (engineDescs : List String)
    (childIds : List String) (start : Nat) (obs : Nat → Nat × List String)
    (fuel : Nat) : List ClientAction × Except String NewSessionResult :=
  if held ≠ some server then
    let was_open := engineDescs.contains server
    let act := if was_open then ClientAction.attachExisting else ClientAction.openConnection
    match childIds with
    | [] => ([act], .error "COM error: Children(0) out of range")
    | _master :: _ =>
      if !was_open then ([act], .ok (.masterChild _master))
      else pollPhase [act] childIds start obs fuel
  else
    match childIds with
    | [] => ([], .error "COM error: Children(0) out of range")
    | _master :: _ => pollPhase [] childIds start obs fuel

/-! ## Helper lemmas -/

deriving instance DecidableEq for Except

theorem headMatch_wf (idn i : String) :
    headMatch idn (some (some i)) = Except.ok (if strIn idn i then [i] else []) := by
  by_cases hs : strIn idn i = true
  · simp [headMatch, getIdDefault, hs]
  · rw [Bool.not_eq_true] at hs
    simp [headMatch, getIdDefault, hs]

mutual
theorem search_tree_wf (idn : String) (t : RawTree) (h : t.wfB = true) :
    search_tree idn t = Except.ok ((preorderIds t).filter fun i => strIn idn i) := by
  match t with
  | .mk none ch => simp [RawTree.wfB] at h
  | .mk (some none) ch => simp [RawTree.wfB] at h
  | .mk (some (some i)) ch =>
    rw [RawTree.wfB, Bool.and_eq_true] at h
    rw [search_tree, headMatch_wf idn i, searchChildren_wf idn ch h.2, preorderIds]
    by_cases hs : strIn idn i = true
    · simp [List.filter_cons, getIdDefault, hs]
    · rw [Bool.not_eq_true] at hs
      simp [List.filter_cons, getIdDefault, hs]
theorem searchChildren_wf (idn : String) (ch : RawChildren) (h : ch.wfB = true) :
    searchChildren idn ch = Except.ok ((preorderIdsC ch).filter fun i => strIn idn i) := by
  match ch with
  | .missing => rfl
  | .present f =>
    rw [RawChildren.wfB] at h
    rw [searchChildren, searchForest_wf idn f h, preorderIdsC]
theorem searchForest_wf (idn : String) (f : RawForest) (h : f.wfB = true) :
    searchForest idn f = Except.ok ((preorderIdsF f).filter fun i => strIn idn i) := by
  match f with
  | .nil => rfl
  | .cons t ts =>
    rw [RawForest.wfB, Bool.and_eq_true] at h
    rw [searchForest, search_tree_wf idn t h.1, searchForest_wf idn ts h.2, preorderIdsF,
      List.filter_append]
end

theorem headMatch_ok_of_ne (idn : String) (h : idn ≠ "")
    (props : Option (Option String)) : ∃ hd, headMatch idn props = Except.ok hd := by
  match props with
  | none => exact ⟨[], by simp [headMatch, getIdDefault, strIn_empty_right idn h]⟩
  | some none => exact ⟨[], by simp [headMatch, getIdDefault, strIn_empty_right idn h]⟩
  | some (some i) =>
    rw [headMatch_wf idn i]
    exact ⟨_, rfl⟩

mutual
theorem search_tree_total (idn : String) (h : idn ≠ "") (t : RawTree) :
    ∃ l, search_tree idn t = Except.ok l := by
  match t with
  | .mk props ch =>
    obtain ⟨hd, hh⟩ := headMatch_ok_of_ne idn h props
    obtain ⟨l, hc⟩ := searchChildren_total idn h ch
    exact ⟨hd ++ l, by rw [search_tree, hh, hc]⟩
theorem searchChildren_total (idn : String) (h : idn ≠ "") (ch : RawChildren) :
    ∃ l, searchChildren idn ch = Except.ok l := by
  match ch with
  | .missing => exact ⟨[], rfl⟩
  | .present f =>
    obtain ⟨l, hf⟩ := searchForest_total idn h f
    exact ⟨l, by rw [searchChildren, hf]⟩
theorem searchForest_total (idn : String) (h : idn ≠ "") (f : RawForest) :
    ∃ l, searchForest idn f = Except.ok l := by
  match f with
  | .nil => exact ⟨[], rfl⟩
  | .cons t ts =>
    obtain ⟨r, ht⟩ := search_tree_total idn h t
    obtain ⟨rs, hts⟩ := searchForest_total idn h ts
    exact ⟨r ++ rs, by rw [searchForest, ht, hts]⟩
end

mutual
theorem search_tree_propsless (t : RawTree) (h : hasNoPropsNode t = true) :
    search_tree "" t = Except.error () := by
  match t with
  | .mk none ch =>
    rw [search_tree, show headMatch "" none = Except.error () from
      by simp [headMatch, getIdDefault, strIn_empty_left]]
  | .mk (some none) ch =>
    rw [search_tree, show headMatch "" (some none) = Except.error () from
      by simp [headMatch, getIdDefault, strIn_empty_left]]
  | .mk (some (some i)) ch =>
    have hch : hasNoPropsChildren ch = true := h
    rw [search_tree, headMatch_wf "" i, searchChildren_propsless ch hch]
theorem searchChildren_propsless (ch : RawChildren) (h : hasNoPropsChildren ch = true) :
    searchChildren "" ch = Except.error () := by
  match ch with
  | .missing => exact absurd h (by simp [hasNoPropsChildren])
  | .present f =>
    rw [hasNoPropsChildren] at h
    rw [searchChildren, searchForest_propsless f h]
theorem searchForest_propsless (f : RawForest) (h : hasNoPropsForest f = true) :
    searchForest "" f = Except.error () := by
  match f with
  | .nil => exact absurd h (by simp [hasNoPropsForest])
  | .cons t ts =>
    rw [hasNoPropsForest] at h
    simp only [Bool.or_eq_true] at h
    by_cases ht : hasNoPropsNode t = true
    · rw [searchForest, search_tree_propsless t ht]
    · have hts : hasNoPropsForest ts = true := by
        cases h with
        | inl h => exact absurd h ht
        | inr h => exact h
      cases hres : search_tree "" t with
      | error e => rw [searchForest, hres]
      | ok r => rw [searchForest, hres, searchForest_propsless ts hts]
end

/-! ## Claim C1 -/

/-- C1: for every well-formed snapshot tree (every node of a
WidgetTreeSnapshot carries `properties.Id`, spec §3) and every fragment
F, `find_elements` returns exactly the identifiers of nodes whose
identifier contains F as a case-sensitive contiguous substring, listed
in depth-first order, each parent before its children, children in
original collection order. -/
theorem C1_find_elements_exact (t : RawTree) (F : String) (h : t.wfB = true) :
    search_tree F t =
      Except.ok ((preorderIds t).filter fun i => decide (F.toList <:+: i.toList)) := by
  rw [search_tree_wf F t h]
  have he : (fun i => strIn F i) = (fun i => decide (F.toList <:+: i.toList)) :=
    funext fun i => strIn_eq_decide F i
  rw [he]

/-- Concrete snapshot used to witness C1 and to refute C4: a root window
`wnd[1]` with two children, one inside a user area, one not. -/
def c1tree : RawTree :=
  .mk (some (some "wnd[1]"))
    (.present (.cons (.mk (some (some "wnd[1]/usr/txtF")) .missing)
      (.cons (.mk (some (some "wnd[1]/txtF")) .missing) .nil)))

theorem C1_witness :
    c1tree.wfB = true ∧
    search_tree "txtF" c1tree =
      Except.ok ((preorderIds c1tree).filter fun i =>
        decide (("txtF" : String).toList <:+: i.toList)) :=
  ⟨by decide, C1_find_elements_exact c1tree "txtF" (by decide)⟩

/-! ## Claim C4 -/

/-- Follows the wording of spec §4.1 (path-shortening convenience): when
the caller-supplied fragment omits the standard user-area segment or the
top-level window segment, prepend the canonical defaults (`usr`, then
`wnd[0]`).  This definition follows the words of the SPEC, not the
source; the counterexample below compares it with what the source
does. -/
def normalizeFragment (f : String) : String :=
  let f1 := if strIn "usr" f then f else "usr/" ++ f
  if strIn "wnd[" f1 then f1 else "wnd[0]/" ++ f1

/-- C4 counterexample: the claim predicts that `find_elements` matches
identifiers against the normalized fragment `normalizeFragment "txtF" =
"wnd[0]/usr/txtF"`, which matches NO identifier of the snapshot
`c1tree`; the source matches the fragment as supplied and returns two
nodes, one of which (`wnd[1]/txtF`) contains neither a `wnd[0]` nor a
`usr` segment.  So no defaults are prepended before matching. -/
theorem C4_counterexample :
    normalizeFragment "txtF" = "wnd[0]/usr/txtF"
    ∧ search_tree "txtF" c1tree = Except.ok ["wnd[1]/usr/txtF", "wnd[1]/txtF"]
    ∧ (preorderIds c1tree).filter (fun i => strIn (normalizeFragment "txtF") i) = []
    ∧ search_tree "txtF" c1tree ≠
        Except.ok ((preorderIds c1tree).filter fun i => strIn (normalizeFragment "txtF") i) :=
  ⟨by decide, by decide, by decide, by decide⟩

/-- C4 amended: `find_elements` applies no normalization to the
caller-supplied fragment; the substring match is performed on the
fragment exactly as supplied, for every well-formed snapshot tree. -/
theorem C4_amended_no_normalization (t : RawTree) (F : String) (h : t.wfB = true) :
    search_tree F t = Except.ok ((preorderIds t).filter fun i => strIn F i) :=
  search_tree_wf F t h

theorem C4_amended_witness :
    c1tree.wfB = true ∧
    search_tree "txtF" c1tree =
      Except.ok ((preorderIds c1tree).filter fun i => strIn "txtF" i) :=
  ⟨by decide, C4_amended_no_normalization c1tree "txtF" (by decide)⟩

/-! ## Claim C10 -/

/-- C10: `find_elements` is total over malformed snapshot nodes for
every non-empty fragment — a node lacking `properties` or `Id` is
treated as having the empty identifier and so contributes nothing, and a
node lacking `children` is treated as a leaf — but for the empty
fragment on a tree containing a node with no `properties` entry the
search raises (the guard passes, the strict identifier lookup does
not). -/
theorem C10_malformed_nodes :
    (∀ (idn : String) (t : RawTree), idn ≠ "" → ∃ l, search_tree idn t = Except.ok l)
    ∧ (∀ (idn : String) (ch : RawChildren), idn ≠ "" →
        search_tree idn (.mk none ch) = searchChildren idn ch)
    ∧ (∀ (idn : String) (ch : RawChildren), idn ≠ "" →
        search_tree idn (.mk (some none) ch) = searchChildren idn ch)
    ∧ (∀ (idn : String) (props : Option (Option String)),
        search_tree idn (.mk props .missing) = search_tree idn (.mk props (.present .nil)))
    ∧ (∀ t : RawTree, hasNoPropsNode t = true → search_tree "" t = Except.error ()) := by
  refine ⟨fun idn t h => search_tree_total idn h t, ?_, ?_, ?_,
    fun t h => search_tree_propsless t h⟩
  · intro idn ch h
    rw [search_tree, show headMatch idn none = Except.ok [] from
      by simp [headMatch, getIdDefault, strIn_empty_right idn h]]
    cases hc : searchChildren idn ch <;> simp [hc]
  · intro idn ch h
    rw [search_tree, show headMatch idn (some none) = Except.ok [] from
      by simp [headMatch, getIdDefault, strIn_empty_right idn h]]
    cases hc : searchChildren idn ch <;> simp [hc]
  · intro idn props
    cases hh : headMatch idn props <;>
      simp [search_tree, hh, searchChildren, searchForest]

theorem C10_witness :
    (("txtF" : String) ≠ ""
      ∧ ∃ l, search_tree "txtF" (.mk none (.present (.cons (.mk (some none) .missing) .nil)))
          = Except.ok l)
    ∧ (hasNoPropsNode (.mk none .missing) = true
      ∧ search_tree "" (.mk none .missing) = Except.error ()) :=
  ⟨⟨by decide, C10_malformed_nodes.1 "txtF"
      (.mk none (.present (.cons (.mk (some none) .missing) .nil))) (by decide)⟩,
   ⟨by decide, C10_malformed_nodes.2.2.2.2 (.mk none .missing) (by decide)⟩⟩

/-! ## Claim C6 -/

/-- C6: `find_element` fails with the NotFound error when `find_elements`
returns zero matches, fails with the AmbiguousMatch error when it
returns two or more matches and `first_element` is false, and returns
the widget resolved from the first match when `first_element` is
true. -/
theorem C6_find_element_cases (t : RawTree) (idn : String) (first_element : Bool)
    (es : List String) (h : search_tree idn t = Except.ok es) :
    (es = [] → find_element idn first_element t = Except.error SessErr.notFound)
    ∧ (∀ e rest, es = e :: rest → rest ≠ [] → first_element = false →
        find_element idn first_element t = Except.error SessErr.ambiguous)
    ∧ (∀ e rest, es = e :: rest → first_element = true →
        find_element idn first_element t = Except.ok e) := by
  refine ⟨?_, ?_, ?_⟩
  · intro he
    subst he
    simp [find_element, h]
  · intro e rest he hr hf
    subst he hf
    match rest, hr with
    | r :: rs, _ =>
      have hgt : (r :: rs).length + 1 > 1 := by simp
      simp [find_element, h, hgt]
  · intro e rest he hf
    subst he hf
    simp [find_element, h]

/-- Snapshot for the C6 witness: two nodes match the fragment `txt`. -/
def c6tree : RawTree :=
  .mk (some (some "wnd[0]"))
    (.present (.cons (.mk (some (some "wnd[0]/usr/txtA")) .missing)
      (.cons (.mk (some (some "wnd[0]/usr/txtB")) .missing) .nil)))

theorem C6_witness :
    search_tree "txt" c6tree = Except.ok ["wnd[0]/usr/txtA", "wnd[0]/usr/txtB"]
    ∧ ((["wnd[0]/usr/txtA", "wnd[0]/usr/txtB"] : List String) = [] →
        find_element "txt" false c6tree = Except.error SessErr.notFound)
    ∧ (∀ e rest, (["wnd[0]/usr/txtA", "wnd[0]/usr/txtB"] : List String) = e :: rest →
        rest ≠ [] → false = false →
        find_element "txt" false c6tree = Except.error SessErr.ambiguous)
    ∧ (∀ e rest, (["wnd[0]/usr/txtA", "wnd[0]/usr/txtB"] : List String) = e :: rest →
        false = true → find_element "txt" false c6tree = Except.ok e) :=
  ⟨by decide, C6_find_element_cases c6tree "txt" false _ (by decide)⟩

/-! ## Claim C7 -/

/-- C7: scalar inputs to `update_field` are split on whitespace; when
the resulting sequences differ in length the call fails with the arity
error and the list of performed writes is empty — no widget text is
modified on that error path. -/
theorem C7_arity_mismatch (s1 s2 : String) (t : RawTree)
    (h : (pySplit s1).length ≠ (pySplit s2).length) :
    update_field (.str s1) (.str s2) t = ([], some SessErr.arityMismatch) := by
  simp [update_field, argList, h]

theorem C7_witness :
    (pySplit "a b").length ≠ (pySplit "x").length
    ∧ update_field (.str "a b") (.str "x") (.mk (some (some "a")) .missing)
        = ([], some SessErr.arityMismatch) :=
  ⟨by decide, C7_arity_mismatch "a b" "x" (.mk (some (some "a")) .missing) (by decide)⟩

/-! ## Claim C8 -/

/-- The four primitive commands one `open_transaction` call issues. -/
def openTxnTrace (code : String) : List GuiCmd :=
  [.setText "wnd[0]/tbar[0]/okcd" "/n", .sendVKey 0 0,
   .setText "wnd[0]/tbar[0]/okcd" code, .sendVKey 0 0]

/-- C8: when the command field resolves, `open_transaction code` never
errors — it first force-closes via the `"/n"` sentinel plus Enter, then
writes the code and dispatches Enter — and calling it again immediately
succeeds with the very same state and trace (close-then-open is
idempotent); closing when nothing is open succeeds as a no-op on the
transaction state. -/
theorem C8_open_transaction_idempotent (s : SapState) (code : String)
    (h : s.hasOkcd = true) :
    (∃ s1, open_transaction code s = Except.ok (s1, openTxnTrace code)
      ∧ open_transaction code s1 = Except.ok (s1, openTxnTrace code))
    ∧ (s.currentTransaction = none →
        close_transaction s =
          Except.ok ({ s with currentTransaction := none, okcd := "" },
            [.setText "wnd[0]/tbar[0]/okcd" "/n", .sendVKey 0 0])) := by
  obtain ⟨ho, ct, ok⟩ := s
  simp only at h
  subst ho
  constructor
  · by_cases h1 : code = "/n"
    · subst h1
      refine ⟨⟨true, none, ""⟩, ?_, ?_⟩ <;>
        simp [open_transaction, close_transaction, write_okcd, send_key0, press_enter,
          openTxnTrace]
    · by_cases h2 : code = ""
      · subst h2
        refine ⟨⟨true, none, ""⟩, ?_, ?_⟩ <;>
          simp [open_transaction, close_transaction, write_okcd, send_key0, press_enter,
            openTxnTrace]
      · refine ⟨⟨true, some code, ""⟩, ?_, ?_⟩ <;>
          simp [open_transaction, close_transaction, write_okcd, send_key0, press_enter,
            openTxnTrace, h1, h2]
  · intro hct
    simp only at hct
    subst hct
    simp [close_transaction, write_okcd, send_key0, press_enter]

theorem C8_witness :
    (SapState.mk true none "").hasOkcd = true
    ∧ ((∃ s1, open_transaction "VA01" ⟨true, none, ""⟩ = Except.ok (s1, openTxnTrace "VA01")
        ∧ open_transaction "VA01" s1 = Except.ok (s1, openTxnTrace "VA01"))
      ∧ ((SapState.mk true none "").currentTransaction = none →
          close_transaction ⟨true, none, ""⟩ =
            Except.ok (⟨true, none, ""⟩,
              [.setText "wnd[0]/tbar[0]/okcd" "/n", .sendVKey 0 0]))) :=
  ⟨rfl, C8_open_transaction_idempotent ⟨true, none, ""⟩ "VA01" rfl⟩

/-! ## Claim C9 -/

/-- C9: when no matching connection is held and no existing connection
carries the requested description — so a brand-new connection is opened
(`was_open = False`) — `new_session` returns a Session wrapping
`connection.Children(0)` (the master session) directly: the action trace
is exactly the `OpenConnection` call, with no `createSession` and no
discovery-poll read. -/
theorem C9_fresh_connection_returns_master (held : Option String) (server : String)
    (engineDescs : List String) (m : String) (cs : List String) (start : Nat)
    (obs : Nat → Nat × List String) (fuel : Nat)
    (hheld : held ≠ some server) (hfresh : engineDescs.contains server = false) :
    new_session held server engineDescs (m :: cs) start obs fuel
      = ([ClientAction.openConnection], Except.ok (NewSessionResult.masterChild m))
    ∧ ClientAction.createSession ∉
        (new_session held server engineDescs (m :: cs) start obs fuel).1
    ∧ ClientAction.pollRead ∉
        (new_session held server engineDescs (m :: cs) start obs fuel).1 := by
  have h1 : new_session held server engineDescs (m :: cs) start obs fuel
      = ([ClientAction.openConnection], Except.ok (NewSessionResult.masterChild m)) := by
    have hmem : server ∉ engineDescs := by simpa using hfresh
    simp [new_session, hheld, hmem]
  refine ⟨h1, ?_, ?_⟩ <;> rw [h1] <;> simp

theorem C9_witness :
    ((none : Option String) ≠ some "S")
    ∧ (([] : List String).contains "S" = false)
    ∧ (new_session none "S" [] ["s0"] 0 (fun _ => (0, [])) 3
        = ([ClientAction.openConnection], Except.ok (NewSessionResult.masterChild "s0"))
      ∧ ClientAction.createSession ∉
          (new_session none "S" [] ["s0"] 0 (fun _ => (0, [])) 3).1
      ∧ ClientAction.pollRead ∉
          (new_session none "S" [] ["s0"] 0 (fun _ => (0, [])) 3).1) :=
  ⟨by decide, by decide,
   C9_fresh_connection_returns_master none "S" [] "s0" [] 0 (fun _ => (0, [])) 3
     (by decide) (by decide)⟩

/-! ## Claim C3 -/

/-- Observation stream in which a second session `b` appears at the
first in-loop re-read, well inside the 20-second deadline. -/
def obsSuccessC3 : Nat → Nat × List String :=
  fun k => if k = 0 then (0, ["a"]) else (k, ["a", "b"])

/-- Observation stream in which no new session ever appears and the
clock passes the deadline at the first in-loop re-read. -/
def obsTimeoutC3 : Nat → Nat × List String :=
  fun k => if k = 0 then (0, ["a"]) else (20 + k, ["a"])

/-- C3: the success half of the claim holds — when the id set grows from
the `before` snapshot `["a"]` to `["a","b"]` within the deadline, the
poll returns the handle resolved from the new identifier `b`.  The
timeout half does NOT hold as claimed: when no new identifier appears
within 20 seconds, the loop falls through and `list(after - before)[0]`
raises an unhandled `IndexError` on the empty difference — a failure,
but not the distinct SessionAcquisitionTimeout signal the claim (and
spec §9) mandate. -/
theorem C3_poll_outcomes :
    new_session (some "S") "S" ["S"] ["a"] 0 obsSuccessC3 10
      = ([ClientAction.createSession, ClientAction.pollRead, ClientAction.pollRead,
          ClientAction.findById "b"], Except.ok (NewSessionResult.polledChild "b"))
    ∧ new_session (some "S") "S" ["S"] ["a"] 0 obsTimeoutC3 10
      = ([ClientAction.createSession, ClientAction.pollRead, ClientAction.pollRead],
         Except.error "IndexError: list index out of range") :=
  ⟨by decide, by decide⟩

/-! ## Claim C2 -/

theorem foldl_accum {α β γ : Type} (l : List α) (f : α → List β) (g : α → List γ)
    (a : List β) (b : List γ) :
    l.foldl (fun acc x => (acc.1 ++ f x, acc.2 ++ g x)) (a, b)
      = (a ++ l.flatMap f, b ++ l.flatMap g) := by
  induction l generalizing a b with
  | nil => simp
  | cons x xs ih => simp [List.foldl_cons, ih, List.flatMap_cons]

theorem gridCellStep_eq (e : GridElement) (r : Nat) (acc : List GridEvent × List String)
    (jc : Nat × String) :
    gridCellStep e r acc jc =
      (acc.1 ++ ((if jc.1 % 3 = 0 then [GridEvent.setFirstVisibleColumn jc.2] else [])
          ++ [GridEvent.readCell r jc.2]),
       acc.2 ++ (e.getcellvalue r jc.2).toList) := by
  unfold gridCellStep
  cases e.getcellvalue r jc.2 <;> simp

/-- The per-cell event group of the column loop. -/
def cellEvents (r : Nat) (jc : Nat × String) : List GridEvent :=
  (if jc.1 % 3 = 0 then [GridEvent.setFirstVisibleColumn jc.2] else [])
    ++ [GridEvent.readCell r jc.2]

theorem gridRow_eq (e : GridElement) (r : Nat) :
    gridRow e r =
      (e.ColumnOrder.enum.flatMap (cellEvents r),
       e.ColumnOrder.enum.flatMap fun jc => (e.getcellvalue r jc.2).toList) := by
  unfold gridRow
  rw [show gridCellStep e r = fun acc jc =>
      (acc.1 ++ cellEvents r jc, acc.2 ++ (e.getcellvalue r jc.2).toList) from
    funext fun acc => funext fun jc => gridCellStep_eq e r acc jc]
  rw [foldl_accum]
  simp

theorem flatMap_toList_eq_filterMap {α β : Type} (l : List α) (f : α → Option β) :
    (l.flatMap fun a => (f a).toList) = l.filterMap f := by
  induction l with
  | nil => rfl
  | cons x xs ih =>
    cases hf : f x <;> simp [List.flatMap_cons, List.filterMap_cons, hf, ih]

theorem flatMap_singleton_eq_map {α β : Type} (l : List α) (g : α → β) :
    (l.flatMap fun x => [g x]) = l.map g := by
  induction l with
  | nil => rfl
  | cons x xs ih => simp [List.flatMap_cons, ih]

theorem GridViewCtrl_eq (e : GridElement) :
    GridViewCtrl e =
      ((List.range e.RowCount).flatMap fun r => (gridRowFull e r).1,
       (List.range e.RowCount).map fun r => (gridRowFull e r).2) := by
  unfold GridViewCtrl
  rw [foldl_accum (List.range e.RowCount) (fun r => (gridRowFull e r).1)
      (fun r => [(gridRowFull e r).2]) [] []]
  rw [flatMap_singleton_eq_map]
  simp

theorem rowScrolls_append (l1 l2 : List GridEvent) :
    rowScrolls (l1 ++ l2) = rowScrolls l1 ++ rowScrolls l2 := by
  unfold rowScrolls
  rw [List.filterMap_append]

theorem rowScrolls_flatMap {α : Type} (l : List α) (f : α → List GridEvent) :
    rowScrolls (l.flatMap f) = l.flatMap fun x => rowScrolls (f x) := by
  induction l with
  | nil => rfl
  | cons x xs ih => simp only [List.flatMap_cons, rowScrolls_append, ih]

theorem rowScrolls_gridRow (e : GridElement) (r : Nat) :
    rowScrolls (gridRow e r).1 = [] := by
  rw [gridRow_eq]
  unfold rowScrolls
  rw [List.filterMap_eq_nil_iff]
  intro ev hev
  rw [List.mem_flatMap] at hev
  obtain ⟨jc, _, hin⟩ := hev
  unfold cellEvents at hin
  rcases List.mem_append.mp hin with hin | hin
  · by_cases h3 : jc.1 % 3 = 0
    · rw [if_pos h3] at hin
      rw [List.mem_singleton.mp hin]
    · rw [if_neg h3] at hin
      exact absurd hin (List.not_mem_nil ev)
  · rw [List.mem_singleton.mp hin]

theorem rowScrolls_gridRowFull (e : GridElement) (r : Nat) :
    rowScrolls (gridRowFull e r).1 = if r % 3 = 0 then [r] else [] := by
  unfold gridRowFull
  rw [rowScrolls_append, rowScrolls_gridRow]
  by_cases h3 : r % 3 = 0
  · simp [h3, rowScrolls]
  · simp [h3, rowScrolls]

theorem flatMap_guard {p : Nat → Prop} [DecidablePred p] (l : List Nat) :
    (l.flatMap fun r => if p r then [r] else []) = l.filter fun r => decide (p r) := by
  induction l with
  | nil => rfl
  | cons x xs ih =>
    by_cases hp : p x <;> simp [List.flatMap_cons, List.filter_cons, hp, ih]

/-- C2: for every virtualized-grid widget, (i) `firstVisibleRow` is
assigned exactly at the row indices divisible by 3, (ii) hence a 7-row
widget repositions rows exactly 3 times, (iii) the full event trace
assigns `firstVisibleColumn` at exactly every 3rd column-order position,
immediately before that cell is read, and (iv) a failed per-cell read
omits the cell from its row with no placeholder: each extracted row is
exactly the successful reads over the reported column order. -/
theorem C2_grid_extraction (e : GridElement) :
    rowScrolls (GridViewCtrl e).1
        = (List.range e.RowCount).filter (fun r => decide (r % 3 = 0))
    ∧ (e.RowCount = 7 → (rowScrolls (GridViewCtrl e).1).length = 3)
    ∧ (GridViewCtrl e).1 = (List.range e.RowCount).flatMap (fun r =>
        (if r % 3 = 0 then [GridEvent.setFirstVisibleRow r] else [])
          ++ e.ColumnOrder.enum.flatMap (cellEvents r))
    ∧ (GridViewCtrl e).2 = (List.range e.RowCount).map (fun r =>
        e.ColumnOrder.enum.filterMap fun jc => e.getcellvalue r jc.2) := by
  have h1 : rowScrolls (GridViewCtrl e).1
      = (List.range e.RowCount).filter fun r => decide (r % 3 = 0) := by
    have h2 : rowScrolls (GridViewCtrl e).1
        = (List.range e.RowCount).flatMap fun r => rowScrolls (gridRowFull e r).1 := by
      rw [GridViewCtrl_eq]
      exact rowScrolls_flatMap _ _
    rw [h2, List.flatMap_congr fun x _ => rowScrolls_gridRowFull e x, flatMap_guard]
  have htrace : (GridViewCtrl e).1 = (List.range e.RowCount).flatMap (fun r =>
      (if r % 3 = 0 then [GridEvent.setFirstVisibleRow r] else [])
        ++ e.ColumnOrder.enum.flatMap (cellEvents r)) := by
    rw [GridViewCtrl_eq]
    exact List.flatMap_congr fun x _ => by simp [gridRowFull, gridRow_eq]
  have h4 : (GridViewCtrl e).2 = (List.range e.RowCount).map (fun r =>
      e.ColumnOrder.enum.filterMap fun jc => e.getcellvalue r jc.2) := by
    rw [GridViewCtrl_eq]
    exact List.map_congr_left fun x _ => by
      simp [gridRowFull, gridRow_eq, flatMap_toList_eq_filterMap]
  refine ⟨h1, fun h7 => ?_, htrace, h4⟩
  rw [h1, h7]
  decide

/-- Concrete 7-row, 4-column virtualized grid for the C2 witness; the
cell at row 2 / column c1 fails to read. -/
def c2grid : GridElement :=
  { RowCount := 7
    ColumnOrder := ["c0", "c1", "c2", "c3"]
    getcellvalue := fun r c => if r = 2 ∧ c = "c1" then none else some (c ++ "@row") }

theorem C2_witness :
    c2grid.RowCount = 7 ∧ (rowScrolls (GridViewCtrl c2grid).1).length = 3 :=
  ⟨rfl, (C2_grid_extraction c2grid).2.1 rfl⟩

/-! ## Claim C5 -/

theorem scanRow_closed (e : TableElement) (r : Nat) (k : Nat) :
    ∀ fuel start, (∀ j, j < k → (e.GetCell r (start + j)).isSome = true) →
      e.GetCell r (start + k) = none → k < fuel →
      scanRow e r fuel start = (List.range' start k).filterMap (e.GetCell r) := by
  induction k with
  | zero =>
    intro fuel start _ hnone hfuel
    match fuel, hfuel with
    | f + 1, _ =>
      rw [scanRow]
      rw [Nat.add_zero] at hnone
      rw [hnone]
      rfl
  | succ k ih =>
    intro fuel start hsome hnone hfuel
    match fuel, hfuel with
    | f + 1, hfuel =>
      have h0 : (e.GetCell r (start + 0)).isSome = true := hsome 0 (Nat.succ_pos k)
      rw [Nat.add_zero] at h0
      obtain ⟨v, hv⟩ := Option.isSome_iff_exists.mp h0
      rw [scanRow, hv]
      have hrec : scanRow e r f (start + 1)
          = (List.range' (start + 1) k).filterMap (e.GetCell r) := by
        apply ih f (start + 1)
        · intro j hj
          have := hsome (j + 1) (Nat.succ_lt_succ hj)
          rwa [show start + (j + 1) = start + 1 + j from by omega] at this
        · rwa [show start + 1 + k = start + (k + 1) from by omega]
        · omega
      rw [hrec, List.range'_succ, List.filterMap_cons, hv]

theorem length_filterMap_of_isSome {α β : Type} (g : α → Option β) (l : List α)
    (h : ∀ a ∈ l, (g a).isSome = true) : (l.filterMap g).length = l.length := by
  induction l with
  | nil => rfl
  | cons x xs ih =>
    obtain ⟨v, hv⟩ := Option.isSome_iff_exists.mp (h x (List.mem_cons_self x xs))
    rw [List.filterMap_cons, hv, List.length_cons, ih fun a ha => h a (List.mem_cons_of_mem x ha)]
    rfl

theorem mem_filter_nonempty (l : List (List String)) (row : List String)
    (h : row ∈ l.filter fun row => !row.isEmpty) : row ≠ [] := by
  have := List.of_mem_filter h
  intro hrow
  subst hrow
  simp at this

/-- C5: for every fixed-grid widget whose per-row column count is
certified by `k` (cells 0..k r - 1 readable, cell k r failing, within
fuel), (i) each row is gathered by probing columns from 0 upward until
the first failing read, (ii) rows that extracted no cell are dropped
from the final fixed-grid result, (iii) the same empty-row filter
applies to the virtualized-grid result, and (iv) a 3-row source whose
rows carry 2, 0 and 2 readable cells — one row fully unreadable — yields
exactly 2 rows. -/
theorem C5_fixed_grid (e : TableElement) (fuel : Nat) (k : Nat → Nat)
    (hk : ∀ r, r < e.RowCount →
      (∀ c, c < k r → (e.GetCell r c).isSome = true)
        ∧ e.GetCell r (k r) = none ∧ k r < fuel) :
    GuiTableControl e fuel
        = ((List.range e.RowCount).map fun r => (List.range (k r)).filterMap (e.GetCell r))
    ∧ (∀ row ∈ get_table_fixed e fuel, row ≠ [])
    ∧ (∀ g : GridElement, ∀ row ∈ get_table_grid g, row ≠ [])
    ∧ (e.RowCount = 3 → k 0 = 2 → k 1 = 0 → k 2 = 2 →
        (get_table_fixed e fuel).length = 2) := by
  have hrow : ∀ r, r < e.RowCount →
      scanRow e r fuel 0 = (List.range (k r)).filterMap (e.GetCell r) := by
    intro r hr
    obtain ⟨hsome, hnone, hfuel⟩ := hk r hr
    have := scanRow_closed e r (k r) fuel 0
      (fun j hj => by simpa using hsome j hj) (by simpa using hnone) hfuel
    rwa [show List.range' 0 (k r) = List.range (k r) from (List.range_eq_range' (k r)).symm]
      at this
  have h1 : GuiTableControl e fuel
      = ((List.range e.RowCount).map fun r => (List.range (k r)).filterMap (e.GetCell r)) := by
    unfold GuiTableControl
    exact List.map_congr_left fun r hr => hrow r (List.mem_range.mp hr)
  have hlen : ∀ r, r < e.RowCount →
      ((List.range (k r)).filterMap (e.GetCell r)).length = k r := by
    intro r hr
    rw [length_filterMap_of_isSome (e.GetCell r) (List.range (k r))
      (fun c hc => (hk r hr).1 c (List.mem_range.mp hc))]
    exact List.length_range (k r)
  refine ⟨h1, fun row hrow => mem_filter_nonempty _ row hrow,
    fun g row hrow => mem_filter_nonempty _ row hrow, ?_⟩
  intro h3 hk0 hk1 hk2
  have hA : ((List.range (k 0)).filterMap (e.GetCell 0)).length = 2 := by
    rw [hlen 0 (by omega), hk0]
  have hB : ((List.range (k 1)).filterMap (e.GetCell 1)) = [] := by
    rw [hk1]
    rfl
  have hC : ((List.range (k 2)).filterMap (e.GetCell 2)).length = 2 := by
    rw [hlen 2 (by omega), hk2]
  unfold get_table_fixed
  rw [h1, h3]
  rw [show List.range 3 = [0, 1, 2] from rfl]
  rw [List.map_cons, List.map_cons, List.map_cons, List.map_nil]
  rw [List.filter_cons, List.filter_cons, List.filter_cons, List.filter_nil]
  have hAe : ((List.range (k 0)).filterMap (e.GetCell 0)).isEmpty = false := by
    cases hres : (List.range (k 0)).filterMap (e.GetCell 0) with
    | nil => rw [hres] at hA; simp at hA
    | cons a as => rfl
  have hBe : ((List.range (k 1)).filterMap (e.GetCell 1)).isEmpty = true := by
    rw [hB]
    rfl
  have hCe : ((List.range (k 2)).filterMap (e.GetCell 2)).isEmpty = false := by
    cases hres : (List.range (k 2)).filterMap (e.GetCell 2) with
    | nil => rw [hres] at hC; simp at hC
    | cons a as => rfl
  rw [hAe, hBe, hCe]
  rfl

/-- Concrete 3-row, 2-column fixed grid for the C5 witness: row 1 is
fully unreadable (its first cell probe already fails). -/
def c5table : TableElement :=
  { RowCount := 3
    GetCell := fun r c => if r = 1 then none else if c < 2 then some "v" else none }

/-- The certified per-row column counts of `c5table`. -/
def c5k : Nat → Nat := fun r => if r = 1 then 0 else 2

theorem C5_witness :
    (∀ r, r < c5table.RowCount →
      (∀ c, c < c5k r → (c5table.GetCell r c).isSome = true)
        ∧ c5table.GetCell r (c5k r) = none ∧ c5k r < 5)
    ∧ (get_table_fixed c5table 5).length = 2 :=
  ⟨by decide, (C5_fixed_grid c5table 5 c5k (by decide)).2.2.2
    (by decide) (by decide) (by decide) (by decide)⟩
